import Mathlib

/-!
# Verification of the content-pipeline webhook gateway, stage functions and
# keyword-research helpers

Shallow embedding of the TypeScript source of the `automara/content-pipeline`
repository.  External collaborators (Airtable record store, Langfuse prompt
store, the Claude LLM call, `JSON.parse` / `JSON.stringify`) are modelled as
oracle parameters; everything the repository itself computes is translated
into executable Lean definitions.
-/

namespace Automara

/-! ## JavaScript-ish values

Webhook payload fields and Airtable record fields arrive as untyped JSON
values.  Arrays in the payloads of this system only ever carry strings
(record ids), so the array constructor holds strings. -/

inductive JVal where
  | undef
  | jnull
  | jstr (s : String)
  | jnum (n : Int)
  | jbool (b : Bool)
  | jarrS (xs : List String)
  deriving DecidableEq, Repr

/-- `typeof v` in JavaScript (note `typeof null = "object"`). -/
def JVal.typeOf : JVal → String
  | .undef => "undefined"
  | .jnull => "object"
  | .jstr _ => "string"
  | .jnum _ => "number"
  | .jbool _ => "boolean"
  | .jarrS _ => "object"

/-- String interpolation of a value inside a JS template literal. -/
def JVal.interp : JVal → String
  | .undef => "undefined"
  | .jnull => "null"
  | .jstr s => s
  | .jnum n => toString n
  | .jbool b => toString b
  | .jarrS xs => String.intercalate "," xs

/-- JS `a || b` for strings: the empty string is falsy. -/
def jsOr (a b : String) : String := if a = "" then b else a

/-- JS `a || b` where `a` may be `undefined` (`none`): both `undefined`
and the empty string fall through to the default. -/
def jsOrOpt (a : Option String) (b : String) : String :=
  match a with
  | none => b
  | some s => jsOr s b

/-- JS truthiness filter on an optional string: `undefined` and `""` are
falsy.  Used for `x ? f(x) : y` conditionals on optional string values. -/
def jsTruthy (a : Option String) : Option String :=
  match a with
  | none => none
  | some s => if s = "" then none else some s

/-- `String.prototype.trim()`: strip leading and trailing whitespace. -/
def jsTrim (s : String) : String :=
  String.mk (((s.toList.dropWhile Char.isWhitespace).reverse.dropWhile
    Char.isWhitespace).reverse)

/-! ## HTTP responses

`res.status(n).json({...})` is modelled as a record of the status code and
the `error` / `message` / `recordId` fields of the JSON body. -/

structure HttpResponse where
  status : Nat
  error : Option String := none
  message : Option String := none
  recordId : Option String := none
  deriving DecidableEq, Repr

/-- The 401 body produced by the `authenticateWebhook` middleware. -/
def unauthorizedResponse : HttpResponse := { status := 401, error := some "Unauthorized" }

/-- `authenticateWebhook` middleware: the `x-webhook-secret` header must be
strictly equal to the configured `WEBHOOK_SECRET` (a missing header is
`undefined` and never equal to a configured string secret). -/
def authenticateWebhook (configSecret : String) (headerSecret : Option String) : Bool :=
  headerSecret == some configSecret

/-- Stand-in for `String(error)` of a Zod schema failure; the exact message
text comes from the external Zod library and is not reproduced here. -/
def zodErrorMessage : String := "ZodError"

/-! ## `POST /api/webhook/start` (routes/webhook.ts) -/

/-- The raw request body of the start webhook before schema validation. -/
structure RawStartBody where
  recordId : JVal
  title : JVal
  industryId : JVal
  personaId : JVal
  contentType : JVal
  keywords : JVal
  deriving DecidableEq, Repr

/-- The validated payload (`startSchema.parse` output), also the event data
of `content/pipeline.start`. -/
structure StartData where
  recordId : String
  title : String
  industryId : Option String
  personaId : Option String
  contentType : String
  keywords : Option String
  deriving DecidableEq, Repr

/-- `z.string()` : accepts exactly string values. -/
def zodString : JVal → Option String
  | .jstr s => some s
  | _ => none

/-- `z.string().optional()` : accepts `undefined` or a string (and nothing
else, in particular not `null`). -/
def zodStringOpt : JVal → Option (Option String)
  | .undef => some none
  | .jstr s => some (some s)
  | _ => none

/-- `startSchema.parse` : succeeds iff every field validates. -/
def startSchemaParse (b : RawStartBody) : Option StartData :=
  match zodString b.recordId, zodString b.title, zodStringOpt b.industryId,
      zodStringOpt b.personaId, zodString b.contentType, zodStringOpt b.keywords with
  | some r, some t, some i, some p, some c, some k =>
      some { recordId := r, title := t, industryId := i, personaId := p,
             contentType := c, keywords := k }
  | _, _, _, _, _, _ => none

/-- The `/start` route handler after authentication: validate, emit one
`content/pipeline.start` event carrying the validated data, reply 200; on
schema failure reply 400 and emit nothing. -/
def startHandler (b : RawStartBody) : HttpResponse × List StartData :=
  match startSchemaParse b with
  | some d => ({ status := 200, message := some "Pipeline started" }, [d])
  | none => ({ status := 400, error := some zodErrorMessage }, [])

/-- The full `/start` route including the authentication middleware. -/
def startRoute (configSecret : String) (headerSecret : Option String)
    (b : RawStartBody) : HttpResponse × List StartData :=
  if authenticateWebhook configSecret headerSecret then startHandler b
  else (unauthorizedResponse, [])

/-! ## `POST /api/webhook/batch` (routes/webhook.ts) -/

/-- Data of one `content/batch.trigger` event: the raw `recordIds` array and
the raw `action` value are forwarded unvalidated. -/
structure BatchTriggerData where
  recordIds : List String
  action : JVal
  deriving DecidableEq, Repr

/-- The `/batch` route handler after authentication.  `recordIds` is the raw
body field (any JSON value); the handler rejects non-arrays and empty
arrays, then arrays of more than 100 entries, else emits exactly one
`content/batch.trigger` event. -/
def batchHandler (recordIds : JVal) (action : JVal) :
    HttpResponse × List BatchTriggerData :=
  match recordIds with
  | .jarrS xs =>
      if xs.length = 0 then
        ({ status := 400, error := some "recordIds must be a non-empty array" }, [])
      else if xs.length > 100 then
        ({ status := 400, error := some "Maximum 100 records per batch" }, [])
      else
        ({ status := 200,
           message := some ("Batch " ++ action.interp ++ " triggered for "
             ++ toString xs.length ++ " records") },
         [{ recordIds := xs, action := action }])
  | _ => ({ status := 400, error := some "recordIds must be a non-empty array" }, [])

/-! ## `POST /api/webhook/outline-approved` (routes/webhook.ts, enriched
variant) -/

/-- The validated minimal payload (`outlineApprovedSchema.parse` output). -/
structure OutlineApprovedBody where
  recordId : String
  outline : String
  feedback : Option String
  deriving DecidableEq, Repr

/-- The fields of a fetched `Content Pipeline` record as the handler reads
them.  `Title` and `Content Type` are read defensively as raw JSON values;
`Industry` / `Persona` are optional linked-record id arrays and
`Target Keywords` an optional string, per the `ContentRecord` type. -/
structure RecordFields where
  title : JVal
  contentType : JVal
  industry : Option (List String)
  persona : Option (List String)
  targetKeywords : Option String
  deriving DecidableEq, Repr

/-- Data of one enriched `content/outline.approved` event. -/
structure OutlineApprovedData where
  recordId : String
  outline : String
  feedback : Option String
  title : String
  contentType : String
  industryId : Option String
  personaId : Option String
  keywords : Option String
  deriving DecidableEq, Repr

/-- The three-tier check the handler applies to `Title` and
`Content Type`: existence (`=== undefined || === null`), type
(`typeof !== "string"`), and non-emptiness after trimming.  Returns the raw
(untrimmed) string on success and the exact 400 message on failure. -/
def fieldCheck (v : JVal) (missingMsg emptyMsg : String)
    (invalidMsg : String → String) : Except String String :=
  match v with
  | .undef => .error missingMsg
  | .jnull => .error missingMsg
  | .jstr s => if jsTrim s = "" then .error emptyMsg else .ok s
  | v => .error (invalidMsg v.typeOf)

def titleMissingMsg : String :=
  "Missing required field: Title. Please ensure the Title field is filled in the Airtable record."

def titleEmptyMsg : String :=
  "Title field is empty. Please ensure the Title field has a value in the Airtable record."

def titleInvalidMsg (t : String) : String :=
  "Invalid Title field type. Expected string, got " ++ t ++ "."

def contentTypeMissingMsg : String :=
  "Missing required field: Content Type. Please ensure the Content Type field is filled in the Airtable record."

def contentTypeEmptyMsg : String :=
  "Content Type field is empty. Please ensure the Content Type field has a value in the Airtable record."

def contentTypeInvalidMsg (t : String) : String :=
  "Invalid Content Type field type. Expected string, got " ++ t ++ "."

/-- `/outline-approved` route handler after authentication and schema
validation, given the fetched record: validate `Title` then `Content Type`
(three-tier each, returning a field-specific 400), then emit exactly one
enriched `content/outline.approved` event.  `industryId` / `personaId` are
`record.fields.Industry?.[0]` / `record.fields.Persona?.[0]`; `keywords` is
`record.fields["Target Keywords"] || undefined` (so a present-but-empty
string is coerced to `undefined`). -/
def outlineApprovedHandler (b : OutlineApprovedBody) (record : RecordFields) :
    HttpResponse × List OutlineApprovedData :=
  match fieldCheck record.title titleMissingMsg titleEmptyMsg titleInvalidMsg with
  | .error msg => ({ status := 400, error := some msg, recordId := some b.recordId }, [])
  | .ok t =>
    match fieldCheck record.contentType contentTypeMissingMsg contentTypeEmptyMsg
        contentTypeInvalidMsg with
    | .error msg => ({ status := 400, error := some msg, recordId := some b.recordId }, [])
    | .ok c =>
      ({ status := 200, message := some "Continuing to draft" },
       [{ recordId := b.recordId, outline := b.outline, feedback := b.feedback,
          title := t, contentType := c,
          industryId := record.industry.bind List.head?,
          personaId := record.persona.bind List.head?,
          keywords := jsTruthy record.targetKeywords }])

/-! ## SEO opportunity score (keyword-research function, capped-volume
variant)

`calculateSEOScore` computes
`Math.round(min(searchVolume / 100, 50) + (50 - keywordDifficulty / 2) + featureBonus)`.
Numbers are modelled as rationals and `Math.round` as `⌊x + 1/2⌋` (JS
rounds halves toward positive infinity). -/

structure KeywordData where
  keyword : String
  searchVolume : ℚ
  cpc : ℚ
  competition : ℚ
  keywordDifficulty : ℚ
  searchIntent : String
  serpFeatures : List String
  relatedKeywords : List String
  competitorUrls : List String

/-- `Math.round` for JavaScript numbers. -/
def jsRound (x : ℚ) : ℤ := ⌊x + 1 / 2⌋

/-- The capped-volume SEO opportunity score. -/
def calculateSEOScore (data : KeywordData) : ℤ :=
  let volumeScore := min (data.searchVolume / 100) 50
  let difficultyScore := 50 - data.keywordDifficulty / 2
  let featureBonus : ℚ :=
    (if data.serpFeatures.contains "Featured Snippet" then 5 else 0) +
    (if data.serpFeatures.contains "PAA" then 3 else 0)
  jsRound (volumeScore + difficultyScore + featureBonus)

/-! ## Context file cache (lib/context.ts)

The module-level `contextCache : Map<string, string>` is modelled as an
association list; the filesystem (`existsSync` + `readFileSync`) as an
oracle `fs : String → Option String` from file paths to contents, `none`
meaning the file does not exist. -/

abbrev ContextCache := List (String × String)

/-- `getContext(name)`: return the cached content if present; otherwise
probe `<name>.md`, returning `""` (and leaving the cache untouched) when
the file is missing, and caching and returning the content when the read
succeeds. -/
def getContext (fs : String → Option String) (cache : ContextCache)
    (name : String) : String × ContextCache :=
  match cache.lookup name with
  | some content => (content, cache)
  | none =>
    match fs (name ++ ".md") with
    | none => ("", cache)
    | some content => (content, (name, content) :: cache)

/-- `getContextBundle(names)`: load several context files through the same
cache, returning the name-to-content map and the final cache. -/
def getContextBundle (fs : String → Option String) (cache : ContextCache) :
    List String → List (String × String) × ContextCache
  | [] => ([], cache)
  | name :: rest =>
    let (content, cache') := getContext fs cache name
    let (bundle, cache'') := getContextBundle fs cache' rest
    ((name, content) :: bundle, cache'')

/-- `clearContextCache()`. -/
def clearContextCache : ContextCache := []

/-! ## JSON-embedded-in-free-text extraction

`parseTitleResponse` (generate-titles.ts) and the `claude-cluster` step of
the auto-cluster function both run the greedy regex `/\x7b[\s\S]*\x7d/` over
the LLM response and `JSON.parse` the match.  `JSON.parse` and
`JSON.stringify` are external runtime builtins, modelled as oracles over a
JSON value type (`none` from the parse oracle means a `SyntaxError`). -/

inductive Json where
  | jnull
  | jbool (b : Bool)
  | jnum (n : Int)
  | jstr (s : String)
  | jarr (xs : List Json)
  | jobj (fields : List (String × Json))
  deriving Repr

/-- The opening brace character. -/
def braceOpen : Char := Char.ofNat 123

/-- The closing brace character. -/
def braceClose : Char := Char.ofNat 125

/-- `response.match(/\x7b[\s\S]*\x7d/)`: greedy, so it spans from the first
opening brace to the last closing brace, provided the latter comes after
the former; `none` when there is no such span. -/
def braceMatch (s : String) : Option String :=
  let cs := s.toList
  match cs.findIdx? (fun c => c = braceOpen), cs.reverse.findIdx? (fun c => c = braceClose) with
  | some i, some rj =>
      let j := cs.length - 1 - rj
      if i ≤ j then some (String.mk ((cs.drop i).take (j + 1 - i))) else none
  | _, _ => none

/-- Property access `obj[k]`: `undefined` (`none`) unless an object carrying
the key. -/
def Json.get (j : Json) (k : String) : Option Json :=
  match j with
  | .jobj fields => fields.lookup k
  | _ => none

/-- JS truthiness of a JSON value. -/
def Json.truthy : Json → Bool
  | .jnull => false
  | .jbool b => b
  | .jnum n => n != 0
  | .jstr s => s != ""
  | .jarr _ => true
  | .jobj _ => true

/-- `x || d` on a possibly-undefined JSON value. -/
def Json.undefOr (v : Option Json) (d : Json) : Json :=
  match v with
  | some j => if j.truthy then j else d
  | none => d

/-- Return shape of `parseTitleResponse`: `title` and `competitorAnalysis`
hold the raw JSON values of `parsed.title || ""` and
`parsed.competitorAnalysis || ""`; `angles` holds the stringified
`parsed.angles || []` — or, on the fallback path, the raw response. -/
structure TitleParse where
  title : Json
  angles : String
  competitorAnalysis : Json
  deriving Repr

/-- `parseTitleResponse(response)` (generate-titles.ts): extract the brace
span, parse it, and pick the fields; any failure (no span, or a parser
error) is caught and answered with the default shape carrying the raw
response in `angles`. -/
def parseTitleResponse (jsonParse : String → Option Json)
    (stringify : Json → String) (response : String) : TitleParse :=
  match braceMatch response with
  | none => { title := .jstr "", angles := response, competitorAnalysis := .jstr "" }
  | some sub =>
    match jsonParse sub with
    | none => { title := .jstr "", angles := response, competitorAnalysis := .jstr "" }
    | some parsed =>
      { title := Json.undefOr (parsed.get "title") (.jstr "")
        angles := stringify (Json.undefOr (parsed.get "angles") (.jarr []))
        competitorAnalysis := Json.undefOr (parsed.get "competitorAnalysis") (.jstr "") }

/-- The two exceptions the `claude-cluster` step can raise while extracting
JSON: its own `No JSON found in Claude response` error, and the
`SyntaxError` of `JSON.parse`. -/
inductive ClusterParseError where
  | noJsonFound
  | jsonSyntaxError
  deriving DecidableEq, Repr

/-- The JSON extraction inside the `claude-cluster` step of `autoCluster`:
unlike `parseTitleResponse`, failures are NOT caught — no span throws, and
a parser error propagates. -/
def clusterExtract (jsonParse : String → Option Json) (text : String) :
    Except ClusterParseError Json :=
  match braceMatch text with
  | none => .error .noJsonFound
  | some sub =>
    match jsonParse sub with
    | none => .error .jsonSyntaxError
    | some j => .ok j

/-! ## Stage functions (Inngest)

Each Inngest stage function is modelled as a pure function from its event
data, its collaborators and (for the monolithic pipeline) the outcomes of
its `waitForEvent` suspensions, to the ordered list of its observable side
effects plus its return value.  Airtable writes carry the exact field-name
and value pairs passed to `updateRecord`. -/

/-- An `Industries` record as `getIndustry` returns it. -/
structure Industry where
  name : String
  description : String
  painPoints : String
  terminology : String

/-- A `Personas` record as `getPersona` returns it. -/
structure Persona where
  name : String
  title : String
  goals : String
  painPoints : String
  objections : String

/-- External collaborators: Langfuse prompt compilation (template name and
variable map to compiled prompt), the Claude generation call (prompt to
generated text), Airtable entity reads, the active context artifacts
(`getActiveArtifacts`, a type-to-content map), and the static context files
(the result of `getContextBundle`, content or `""` per `getContext`). -/
structure Collaborators where
  getPrompt : String → List (String × String) → String
  generate : String → String
  getIndustry : String → Industry
  getPersona : String → Persona
  artifacts : List (String × String)
  contextFile : String → String

/-- Observable side effects of a stage function, in execution order. -/
inductive StageEffect where
  | update (recordId : String) (fields : List (String × String))
  | genCall (prompt : String)
  | waitEvt (stepName : String) (eventName : String) (timeout : String) (matchOn : String)
  deriving DecidableEq, Repr

/-- The generation calls of a trace. -/
def genCalls (tr : List StageEffect) : List String :=
  tr.filterMap fun eff =>
    match eff with
    | .genCall p => some p
    | _ => none

/-- The `Status` values a trace persists, in order. -/
def statusWrites (tr : List StageEffect) : List String :=
  tr.filterMap fun eff =>
    match eff with
    | .update _ fields => fields.lookup "Status"
    | _ => none

/-- The object-spread `... artifacts` after a statically-keyed entry: an
active artifact whose `Type` equals the key overrides the static value. -/
def spreadOver (base : String) (arts : List (String × String)) (key : String) : String :=
  match arts.lookup key with
  | some v => v
  | none => base

/-- `o?.f || d`: the descriptive-field defaults (`"General"`,
`"General audience"`, `""`) used in all prompt-variable maps. -/
def optField {α : Type} (o : Option α) (f : α → String) (d : String) : String :=
  match o with
  | none => d
  | some x => jsOr (f x) d

/-- The merged context object of the content stage functions: four static
file contents (each overridable by an active artifact under the same
camel-cased key), the resolved industry/persona, and the keyword string. -/
structure AssembledContext where
  companyProfile : String
  voiceGuidelines : String
  productOverview : String
  differentiators : String
  industry : Option Industry
  persona : Option Persona
  keywords : String

/-- Assemble the context (`assemble-context` steps): static bundle of
company-profile / voice-guidelines / product-overview / differentiators,
artifact override, resolved entities. -/
def assembleContextCore (c : Collaborators) (industry : Option Industry)
    (persona : Option Persona) (keywords : String) : AssembledContext :=
  { companyProfile := spreadOver (c.contextFile "company-profile") c.artifacts "companyProfile"
    voiceGuidelines := spreadOver (c.contextFile "voice-guidelines") c.artifacts "voiceGuidelines"
    productOverview := spreadOver (c.contextFile "product-overview") c.artifacts "productOverview"
    differentiators := spreadOver (c.contextFile "differentiators") c.artifacts "differentiators"
    industry := industry
    persona := persona
    keywords := keywords }

/-- `id ? fetch(id) : rec.Links?.[0] ? fetch(rec.Links[0]) : null` — the
industry/persona resolution of generate-outline.ts (event value first,
record fallback second, JS truthiness throughout). -/
def resolveLinked {α : Type} (fetch : String → α) (eventId : Option String)
    (recLinks : Option (List String)) : Option α :=
  match jsTruthy eventId with
  | some i => some (fetch i)
  | none =>
    match jsTruthy (recLinks.bind List.head?) with
    | some i => some (fetch i)
    | none => none

/-- `id ? fetch(id) : null` — the resolution used where no record fallback
exists (generate-draft.ts, content-pipeline.ts, the alternate finalize). -/
def resolveLinkedEvt {α : Type} (fetch : String → α) (eventId : Option String) : Option α :=
  match jsTruthy eventId with
  | some i => some (fetch i)
  | none => none

/-- `generateOutline` (generate-outline.ts, standalone, triggered by
`content/pipeline.start`): persist run id and `Generating`, fetch the
record, assemble context, compile the `outline-{contentType}` prompt,
generate, persist the outline with `Outline Review`, and return
`(recordId, "outline-ready")`.  Event fields fall back to record fields
(`contentType || record.fields["Content Type"]` etc.); a non-string record
value interpolates as its JS string form. -/
def generateOutline (c : Collaborators) (getRec : String → RecordFields)
    (e : StartData) (runId : String) : List StageEffect × (String × String) :=
  let record := getRec e.recordId
  let industry := resolveLinked c.getIndustry e.industryId record.industry
  let persona := resolveLinked c.getPersona e.personaId record.persona
  let keywords := jsOrOpt e.keywords (jsOrOpt record.targetKeywords "")
  let ctx := assembleContextCore c industry persona keywords
  let finalContentType := jsOr e.contentType record.contentType.interp
  let finalTitle := jsOr e.title record.title.interp
  let promptTemplate := c.getPrompt ("outline-" ++ finalContentType)
    [("title", finalTitle),
     ("companyProfile", ctx.companyProfile),
     ("voiceGuidelines", ctx.voiceGuidelines),
     ("productOverview", ctx.productOverview),
     ("differentiators", ctx.differentiators),
     ("industryName", optField ctx.industry (fun i => i.name) "General"),
     ("industryDescription", optField ctx.industry (fun i => i.description) ""),
     ("industryPainPoints", optField ctx.industry (fun i => i.painPoints) ""),
     ("personaName", optField ctx.persona (fun p => p.name) "General audience"),
     ("personaTitle", optField ctx.persona (fun p => p.title) ""),
     ("personaGoals", optField ctx.persona (fun p => p.goals) ""),
     ("personaPainPoints", optField ctx.persona (fun p => p.painPoints) ""),
     ("keywords", ctx.keywords)]
  let outline := c.generate promptTemplate
  ([.update e.recordId [("Inngest Run ID", runId), ("Status", "Generating")],
    .genCall promptTemplate,
    .update e.recordId [("Outline", outline), ("Status", "Outline Review")]],
   (e.recordId, "outline-ready"))

/-- `generateDraft` (generate-draft.ts, standalone, triggered by the
enriched `content/outline.approved` event): persist `Drafting`, assemble
context from the event ids, compile the `draft-{contentType}` prompt with
outline and feedback, generate (8192-token budget), persist the draft with
`Draft Review`, and return `(recordId, "draft-ready")`. -/
def generateDraft (c : Collaborators) (e : OutlineApprovedData) :
    List StageEffect × (String × String) :=
  let industry := resolveLinkedEvt c.getIndustry e.industryId
  let persona := resolveLinkedEvt c.getPersona e.personaId
  let ctx := assembleContextCore c industry persona ""
  let promptTemplate := c.getPrompt ("draft-" ++ e.contentType)
    [("title", e.title),
     ("companyProfile", ctx.companyProfile),
     ("voiceGuidelines", ctx.voiceGuidelines),
     ("productOverview", ctx.productOverview),
     ("differentiators", ctx.differentiators),
     ("industryName", optField ctx.industry (fun i => i.name) "General"),
     ("personaName", optField ctx.persona (fun p => p.name) "General audience"),
     ("outline", e.outline),
     ("feedback", jsOrOpt e.feedback ""),
     ("keywords", jsOrOpt e.keywords "")]
  let draft := c.generate promptTemplate
  ([.update e.recordId [("Status", "Drafting")],
    .genCall promptTemplate,
    .update e.recordId [("Draft", draft), ("Status", "Draft Review")]],
   (e.recordId, "draft-ready"))

/-- The minimal `content/draft.approved` event data, as the event type
declares it and as the draft-approved webhook emits it. -/
structure DraftApprovedData where
  recordId : String
  draft : String
  feedback : Option String
  deriving DecidableEq, Repr

/-- `finalizeContent` (finalize-content.ts, standalone, triggered by
`content/draft.approved`): a single `finalize` step persisting the approved
draft as `Final Content` with status `Complete`, returning
`(recordId, "complete")`.  The destructured `feedback` is never used; there
is no generation call in this function. -/
def finalizeContent (e : DraftApprovedData) : List StageEffect × (String × String) :=
  ([.update e.recordId [("Final Content", e.draft), ("Status", "Complete")]],
   (e.recordId, "complete"))

/-- The `content/draft.approved` event as the alternate finalize variant
destructures it: it also reads `title`, `contentType`, `industryId`,
`personaId` and `keywords` off the event, fields the declared event type
does not carry — each is `undefined` (`none`) unless a sender adds it. -/
structure DraftApprovedRich where
  recordId : String
  draft : String
  feedback : Option String
  title : Option String
  contentType : Option String
  industryId : Option String
  personaId : Option String
  keywords : Option String
  deriving DecidableEq, Repr

/-- `feedback && feedback.trim().length > 0`. -/
def hasFeedback (feedback : Option String) : Bool :=
  match feedback with
  | none => false
  | some f => !(jsTrim f).isEmpty

/-- The `finalize-{contentType}` prompt of the alternate finalize variant
(an absent event field interpolates as `undefined`). -/
def finalizePrompt (c : Collaborators) (e : DraftApprovedRich) : String :=
  let industry := resolveLinkedEvt c.getIndustry e.industryId
  let persona := resolveLinkedEvt c.getPersona e.personaId
  let ctx := assembleContextCore c industry persona ""
  c.getPrompt ("finalize-" ++ (e.contentType.getD "undefined"))
    [("title", e.title.getD "undefined"),
     ("companyProfile", ctx.companyProfile),
     ("voiceGuidelines", ctx.voiceGuidelines),
     ("productOverview", ctx.productOverview),
     ("differentiators", ctx.differentiators),
     ("industryName", optField ctx.industry (fun i => i.name) "General"),
     ("personaName", optField ctx.persona (fun p => p.name) "General audience"),
     ("draft", e.draft),
     ("feedback", jsOrOpt e.feedback ""),
     ("keywords", jsOrOpt e.keywords "")]

/-- The alternate `finalizeContent` variant kept in the repository: when
feedback is present and non-blank, assemble context, compile the
`finalize-{contentType}` prompt with draft and feedback, generate
(8192-token budget) and persist the result with `Complete`
(`refined: true`); otherwise copy the draft directly (`refined: false`). -/
def finalizeContentRefine (c : Collaborators) (e : DraftApprovedRich) :
    List StageEffect × (String × String × Bool) :=
  if hasFeedback e.feedback then
    let promptTemplate := finalizePrompt c e
    let finalContent := c.generate promptTemplate
    ([.genCall promptTemplate,
      .update e.recordId [("Final Content", finalContent), ("Status", "Complete")]],
     (e.recordId, "complete", true))
  else
    ([.update e.recordId [("Final Content", e.draft), ("Status", "Complete")]],
     (e.recordId, "complete", false))

/-- The matched `content/outline.approved` event data the monolithic
pipeline reads after its first wait. -/
structure OutlineApproval where
  outline : String
  feedback : Option String
  deriving DecidableEq, Repr

/-- The matched `content/draft.approved` event data the monolithic pipeline
reads after its second wait. -/
structure DraftApproval where
  draft : String
  feedback : Option String
  deriving DecidableEq, Repr

/-- The return value of the monolithic pipeline:
`\x7b status: "timeout", stage \x7d` or `\x7b status: "complete", recordId \x7d`. -/
inductive PipelineResult where
  | timeout (stage : String)
  | complete (recordId : String)
  deriving DecidableEq, Repr

/-- `contentPipeline` (content-pipeline.ts, deprecated Realization B): one
long-lived function spanning outline generation, draft generation and
finalization, suspending twice on `waitForEvent` (matched on
`data.recordId`, 30-day timeout).  The wait oracles carry the matched event
data, `none` meaning the wait timed out; on timeout the function persists
`Status: Error` and returns a timeout result instead of raising. -/
def contentPipeline (c : Collaborators) (e : StartData) (runId : String)
    (outlineApproval : Option OutlineApproval)
    (draftApproval : Option DraftApproval) : List StageEffect × PipelineResult :=
  let industry := resolveLinkedEvt c.getIndustry e.industryId
  let persona := resolveLinkedEvt c.getPersona e.personaId
  let ctx := assembleContextCore c industry persona (jsOrOpt e.keywords "")
  let outlinePrompt := c.getPrompt ("outline-" ++ e.contentType)
    [("title", e.title),
     ("companyProfile", ctx.companyProfile),
     ("voiceGuidelines", ctx.voiceGuidelines),
     ("productOverview", ctx.productOverview),
     ("differentiators", ctx.differentiators),
     ("industryName", optField ctx.industry (fun i => i.name) "General"),
     ("industryDescription", optField ctx.industry (fun i => i.description) ""),
     ("industryPainPoints", optField ctx.industry (fun i => i.painPoints) ""),
     ("personaName", optField ctx.persona (fun p => p.name) "General audience"),
     ("personaTitle", optField ctx.persona (fun p => p.title) ""),
     ("personaGoals", optField ctx.persona (fun p => p.goals) ""),
     ("personaPainPoints", optField ctx.persona (fun p => p.painPoints) ""),
     ("keywords", ctx.keywords)]
  let outline := c.generate outlinePrompt
  let headEffects := [
    StageEffect.update e.recordId [("Inngest Run ID", runId), ("Status", "Generating")],
    StageEffect.genCall outlinePrompt,
    StageEffect.update e.recordId [("Outline", outline), ("Status", "Outline Review")],
    StageEffect.waitEvt "wait-outline-approval" "content/outline.approved" "30d" "data.recordId"]
  match outlineApproval with
  | none =>
      (headEffects ++ [.update e.recordId [("Status", "Error")]], .timeout "outline")
  | some oa =>
    let draftPrompt := c.getPrompt ("draft-" ++ e.contentType)
      [("title", e.title),
       ("companyProfile", ctx.companyProfile),
       ("voiceGuidelines", ctx.voiceGuidelines),
       ("productOverview", ctx.productOverview),
       ("differentiators", ctx.differentiators),
       ("industryName", optField ctx.industry (fun i => i.name) "General"),
       ("personaName", optField ctx.persona (fun p => p.name) "General audience"),
       ("outline", oa.outline),
       ("feedback", jsOrOpt oa.feedback ""),
       ("keywords", ctx.keywords)]
    let draft := c.generate draftPrompt
    let midEffects := headEffects ++ [
      StageEffect.update e.recordId [("Status", "Drafting")],
      StageEffect.genCall draftPrompt,
      StageEffect.update e.recordId [("Draft", draft), ("Status", "Draft Review")],
      StageEffect.waitEvt "wait-draft-approval" "content/draft.approved" "30d" "data.recordId"]
    match draftApproval with
    | none =>
        (midEffects ++ [.update e.recordId [("Status", "Error")]], .timeout "draft")
    | some da =>
        (midEffects ++
          [.update e.recordId [("Final Content", da.draft), ("Status", "Complete")]],
         .complete e.recordId)

/-! ## Status order and triggering statuses (C3) -/

/-- The fixed forward chain of ContentItem statuses. -/
def statusOrder : List String :=
  ["Draft", "Ready", "Generating", "Outline Review", "Outline Approved",
   "Drafting", "Draft Review", "Draft Approved", "Complete"]

/-- A persisted status moves the record forward from `trigger` when it is
`Error` or a chain status strictly later than `trigger`. -/
def movesForwardFrom (trigger s : String) : Prop :=
  s = "Error" ∨ (s ∈ statusOrder ∧ statusOrder.indexOf trigger < statusOrder.indexOf s)

instance (trigger s : String) : Decidable (movesForwardFrom trigger s) := by
  unfold movesForwardFrom; infer_instance

/-- The status whose external (human) change fires the Airtable automation
that calls the webhook emitting each event, per the route documentation in
webhook.ts (`Ready`, `Outline Approved`, `Draft Approved`). -/
def triggerStatus (eventName : String) : String :=
  if eventName = "content/pipeline.start" then "Ready"
  else if eventName = "content/outline.approved" then "Outline Approved"
  else if eventName = "content/draft.approved" then "Draft Approved"
  else ""

/-! ## Batch dispatcher (C6) -/

/-- The chunking loop of `batchUpdateStatus`
(`for (let i = 0; i < n; i += 10) batches.push(slice(i, i + 10))`), written
with the list length as structural fuel. -/
def batchChunksAux : Nat → List String → List (List String)
  | 0, _ => []
  | _ + 1, [] => []
  | fuel + 1, l => l.take 10 :: batchChunksAux fuel (l.drop 10)

/-- The chunks of at most 10 ids `batchUpdateStatus` bulk-updates, in
order. -/
def batchChunks (recordIds : List String) : List (List String) :=
  batchChunksAux recordIds.length recordIds

/-- One `content/pipeline.start` event the batch dispatcher builds from a
record: raw field values are forwarded without validation. -/
structure BatchStartEvent where
  recordId : String
  title : JVal
  industryId : Option String
  personaId : Option String
  contentType : JVal
  keywords : Option String
  deriving DecidableEq, Repr

/-- Observable side effects of the batch dispatcher: event sends and the
bulk `contentTable.update` calls of `batchUpdateStatus`. -/
inductive BatchEffect where
  | send (e : BatchStartEvent)
  | bulkUpdate (ids : List String) (status : String)
  deriving DecidableEq, Repr

/-- The return value of `batchTrigger`. -/
inductive BatchResult where
  | batchStarted (count : Nat)
  | unknownAction
  deriving DecidableEq, Repr

/-- `batchTrigger` (triggered by `content/batch.trigger`): for
`action = "start"`, load each record and build one `content/pipeline.start`
event per id (in input order, carrying the title, content type,
first linked industry/persona ids and keywords), send them all in one
`inngest.send`, and only then run `batchUpdateStatus(recordIds,
"Generating")`, which updates in consecutive chunks of at most 10. -/
def batchTrigger (getRec : String → RecordFields) (recordIds : List String)
    (action : String) : List BatchEffect × BatchResult :=
  if action = "start" then
    let events := recordIds.map fun rid =>
      let record := getRec rid
      BatchEffect.send
        { recordId := rid, title := record.title,
          industryId := record.industry.bind List.head?,
          personaId := record.persona.bind List.head?,
          contentType := record.contentType,
          keywords := record.targetKeywords }
    (events ++ (batchChunks recordIds).map (fun b => BatchEffect.bulkUpdate b "Generating"),
     .batchStarted recordIds.length)
  else ([], .unknownAction)

/-! ## Concrete fixtures for witnesses -/

/-- Concrete collaborators: the prompt compiles to its template name, the
LLM echoes its prompt behind a marker, entities carry their id as name. -/
def fixtureCollab : Collaborators :=
  { getPrompt := fun name _ => name
    generate := fun promptText => "GEN:" ++ promptText
    getIndustry := fun i => ⟨i, "", "", ""⟩
    getPersona := fun p => ⟨p, "", "", "", ""⟩
    artifacts := []
    contextFile := fun _ => "" }

/-- A concrete fetched record. -/
def fixtureRecord : RecordFields :=
  { title := .jstr "T", contentType := .jstr "blog", industry := none,
    persona := none, targetKeywords := none }

end Automara

namespace Automara

/-! ## Theorems -/

/-- C4: for every request to the start webhook, a wrong (or missing)
`X-Webhook-Secret` header yields a 401 and no event; a correct secret with a
body failing `startSchema` yields a 400 and no event; otherwise exactly one
`content/pipeline.start` event is emitted whose data equals the validated
input and the response reports success. -/
theorem start_route_spec (cfg : String) (hdr : Option String) (b : RawStartBody) :
    (hdr ≠ some cfg → startRoute cfg hdr b = (unauthorizedResponse, [])) ∧
    (hdr = some cfg → startSchemaParse b = none →
      startRoute cfg hdr b = ({ status := 400, error := some zodErrorMessage }, [])) ∧
    (∀ d : StartData, hdr = some cfg → startSchemaParse b = some d →
      startRoute cfg hdr b = ({ status := 200, message := some "Pipeline started" }, [d])) := by
  refine ⟨fun h => ?_, fun h hp => ?_, fun d h hp => ?_⟩
  · simp [startRoute, authenticateWebhook, beq_iff_eq, h]
  · simp [startRoute, authenticateWebhook, beq_iff_eq, h, startHandler, hp]
  · simp [startRoute, authenticateWebhook, beq_iff_eq, h, startHandler, hp]

/-- Witness for C4: concrete instances of all three branches. -/
theorem start_route_spec_witness :
    startRoute "s3cret" none
      { recordId := .jstr "rec1", title := .jstr "T", industryId := .undef,
        personaId := .undef, contentType := .jstr "blog", keywords := .undef }
      = (unauthorizedResponse, []) ∧
    startRoute "s3cret" (some "s3cret")
      { recordId := .jnum 5, title := .jstr "T", industryId := .undef,
        personaId := .undef, contentType := .jstr "blog", keywords := .undef }
      = ({ status := 400, error := some zodErrorMessage }, []) ∧
    startRoute "s3cret" (some "s3cret")
      { recordId := .jstr "rec1", title := .jstr "T", industryId := .undef,
        personaId := .undef, contentType := .jstr "blog", keywords := .jstr "k1, k2" }
      = ({ status := 200, message := some "Pipeline started" },
         [{ recordId := "rec1", title := "T", industryId := none, personaId := none,
            contentType := "blog", keywords := some "k1, k2" }]) := by
  refine ⟨(start_route_spec "s3cret" none _).1 (by decide),
    (start_route_spec "s3cret" (some "s3cret") _).2.1 rfl (by decide),
    (start_route_spec "s3cret" (some "s3cret") _).2.2 _ rfl (by decide)⟩

/-- C7: the batch webhook rejects an empty `recordIds` array and an array of
more than 100 entries with HTTP 400 (the limit-exceeded error) and emits no
event; every array of length 1..100 is accepted and emits exactly one
`content/batch.trigger` event. -/
theorem batch_route_limits (xs : List String) (action : JVal) :
    (xs.length = 0 ∨ xs.length > 100 →
      (batchHandler (.jarrS xs) action).1.status = 400 ∧
      (batchHandler (.jarrS xs) action).2 = []) ∧
    (1 ≤ xs.length → xs.length ≤ 100 →
      batchHandler (.jarrS xs) action =
        ({ status := 200,
           message := some ("Batch " ++ action.interp ++ " triggered for "
             ++ toString xs.length ++ " records") },
         [{ recordIds := xs, action := action }])) := by
  constructor
  · rintro (h | h)
    · simp [batchHandler, h]
    · have h0 : ¬ xs.length = 0 := by omega
      simp [batchHandler, h0, h]
  · intro h1 h100
    have h0 : ¬ xs.length = 0 := by omega
    have hgt : ¬ xs.length > 100 := by omega
    simp [batchHandler, h0, hgt]

/-- Witness for C7: length 0 and length 101 rejected, length 1 and
length 100 accepted. -/
theorem batch_route_limits_witness :
    (batchHandler (.jarrS []) (.jstr "start")).1.status = 400 ∧
    (batchHandler (.jarrS (List.replicate 101 "r")) (.jstr "start")).2 = [] ∧
    batchHandler (.jarrS ["r1"]) (.jstr "start") =
      ({ status := 200, message := some "Batch start triggered for 1 records" },
       [{ recordIds := ["r1"], action := .jstr "start" }]) ∧
    (batchHandler (.jarrS (List.replicate 100 "r")) (.jstr "start")).2 =
      [{ recordIds := List.replicate 100 "r", action := .jstr "start" }] := by
  refine ⟨((batch_route_limits [] (.jstr "start")).1 (Or.inl rfl)).1,
    ((batch_route_limits (List.replicate 101 "r") (.jstr "start")).1 (Or.inr (by decide))).2,
    ?_, ?_⟩
  · have h := (batch_route_limits ["r1"] (.jstr "start")).2 (by decide) (by decide)
    simpa [JVal.interp] using h
  · rw [(batch_route_limits (List.replicate 100 "r") (.jstr "start")).2
      (by decide) (by decide)]

/-- C2 counterexample: for a fetched record whose `Target Keywords` field is
present but equal to the empty string, the handler emits the enriched event
with `keywords = undefined` (because of the `|| undefined` coercion), not
with the value on the record as the claim requires for present fields. -/
theorem outline_approved_keywords_counterexample :
    (outlineApprovedHandler { recordId := "rec1", outline := "OUTLINE", feedback := none }
        { title := .jstr "T", contentType := .jstr "blog", industry := none,
          persona := none, targetKeywords := some "" }).2 =
      [{ recordId := "rec1", outline := "OUTLINE", feedback := none, title := "T",
         contentType := "blog", industryId := none, personaId := none,
         keywords := none }] ∧
    (some "" : Option String) ≠ none := by
  exact ⟨by decide, by decide⟩

/-- Helper: every error message produced by the three-tier field check is
one of the three messages for that field. -/
theorem fieldCheck_error_msg (v : JVal) (m e : String) (inv : String → String)
    (msg : String) (h : fieldCheck v m e inv = .error msg) :
    msg = m ∨ msg = e ∨ ∃ ty, msg = inv ty := by
  cases v with
  | undef =>
      simp only [fieldCheck, Except.error.injEq] at h
      exact Or.inl h.symm
  | jnull =>
      simp only [fieldCheck, Except.error.injEq] at h
      exact Or.inl h.symm
  | jstr s =>
      simp only [fieldCheck] at h
      by_cases hs : jsTrim s = ""
      · rw [if_pos hs] at h
        exact Or.inr (Or.inl (Except.error.inj h).symm)
      · rw [if_neg hs] at h
        exact absurd h (by simp)
  | jnum n =>
      simp only [fieldCheck, JVal.typeOf, Except.error.injEq] at h
      exact Or.inr (Or.inr ⟨"number", h.symm⟩)
  | jbool bv =>
      simp only [fieldCheck, JVal.typeOf, Except.error.injEq] at h
      exact Or.inr (Or.inr ⟨"boolean", h.symm⟩)
  | jarrS xs =>
      simp only [fieldCheck, JVal.typeOf, Except.error.injEq] at h
      exact Or.inr (Or.inr ⟨"object", h.symm⟩)

/-- C2 (amended): if the `Title` or `Content Type` of the fetched record fails the
three-tier check (missing/null, non-string, blank after trimming) the
response is a 400 whose message names that field and no event is emitted;
if both are valid non-empty strings, exactly one enriched
`content/outline.approved` event is emitted merging the minimal payload with
the raw title and content type of the record, the first linked industry and
persona ids when present, and the `Target Keywords` of the record when present
and non-empty (`undefined` when absent or empty, due to `|| undefined`). -/
theorem outline_approved_spec (b : OutlineApprovedBody) (r : RecordFields) :
    (∀ msg, fieldCheck r.title titleMissingMsg titleEmptyMsg titleInvalidMsg = .error msg →
      outlineApprovedHandler b r =
        ({ status := 400, error := some msg, recordId := some b.recordId }, []) ∧
      (msg = titleMissingMsg ∨ msg = titleEmptyMsg ∨ ∃ ty, msg = titleInvalidMsg ty)) ∧
    (∀ t msg, fieldCheck r.title titleMissingMsg titleEmptyMsg titleInvalidMsg = .ok t →
      fieldCheck r.contentType contentTypeMissingMsg contentTypeEmptyMsg
          contentTypeInvalidMsg = .error msg →
      outlineApprovedHandler b r =
        ({ status := 400, error := some msg, recordId := some b.recordId }, []) ∧
      (msg = contentTypeMissingMsg ∨ msg = contentTypeEmptyMsg ∨
        ∃ ty, msg = contentTypeInvalidMsg ty)) ∧
    (∀ t c, r.title = .jstr t → jsTrim t ≠ "" → r.contentType = .jstr c → jsTrim c ≠ "" →
      outlineApprovedHandler b r =
        ({ status := 200, message := some "Continuing to draft" },
         [{ recordId := b.recordId, outline := b.outline, feedback := b.feedback,
            title := t, contentType := c,
            industryId := r.industry.bind List.head?,
            personaId := r.persona.bind List.head?,
            keywords := jsTruthy r.targetKeywords }])) := by
  refine ⟨fun msg hmsg => ⟨?_, fieldCheck_error_msg _ _ _ _ _ hmsg⟩,
    fun t msg ht hmsg => ⟨?_, fieldCheck_error_msg _ _ _ _ _ hmsg⟩,
    fun t c ht htne hc hcne => ?_⟩
  · simp [outlineApprovedHandler, hmsg]
  · simp [outlineApprovedHandler, ht, hmsg]
  · simp [outlineApprovedHandler, fieldCheck, ht, hc, htne, hcne]

/-- Witness for C2 (amended): a missing title, a blank content type, and a
fully valid record with one linked industry. -/
theorem outline_approved_spec_witness :
    outlineApprovedHandler { recordId := "recA", outline := "O", feedback := some "fb" }
        { title := .undef, contentType := .jstr "blog", industry := none,
          persona := none, targetKeywords := none } =
      ({ status := 400, error := some titleMissingMsg, recordId := some "recA" }, []) ∧
    outlineApprovedHandler { recordId := "recB", outline := "O", feedback := none }
        { title := .jstr "T", contentType := .jstr "  ", industry := none,
          persona := none, targetKeywords := none } =
      ({ status := 400, error := some contentTypeEmptyMsg, recordId := some "recB" }, []) ∧
    outlineApprovedHandler { recordId := "recC", outline := "O", feedback := some "f" }
        { title := .jstr "T", contentType := .jstr "blog",
          industry := some ["ind1", "ind2"], persona := none,
          targetKeywords := some "kw" } =
      ({ status := 200, message := some "Continuing to draft" },
       [{ recordId := "recC", outline := "O", feedback := some "f", title := "T",
          contentType := "blog", industryId := some "ind1", personaId := none,
          keywords := some "kw" }]) := by
  refine ⟨((outline_approved_spec
      { recordId := "recA", outline := "O", feedback := some "fb" }
      { title := .undef, contentType := .jstr "blog", industry := none,
        persona := none, targetKeywords := none }).1 titleMissingMsg rfl).1,
    ((outline_approved_spec
      { recordId := "recB", outline := "O", feedback := none }
      { title := .jstr "T", contentType := .jstr "  ", industry := none,
        persona := none, targetKeywords := none }).2.1 "T" contentTypeEmptyMsg rfl rfl).1,
    ?_⟩
  have h := (outline_approved_spec
      { recordId := "recC", outline := "O", feedback := some "f" }
      { title := .jstr "T", contentType := .jstr "blog",
        industry := some ["ind1", "ind2"], persona := none,
        targetKeywords := some "kw" }).2.2 "T" "blog" rfl (by decide) rfl (by decide)
  rw [h]; decide

/-- C8: for the capped-volume SEO opportunity score, with SERP features held
fixed the score is non-decreasing in search volume (difficulty fixed) and
non-increasing in keyword difficulty (volume fixed). -/
theorem calculateSEOScore_monotone (d1 d2 : KeywordData)
    (hf : d1.serpFeatures = d2.serpFeatures) :
    (d1.keywordDifficulty = d2.keywordDifficulty →
      d1.searchVolume ≤ d2.searchVolume →
      calculateSEOScore d1 ≤ calculateSEOScore d2) ∧
    (d1.searchVolume = d2.searchVolume →
      d1.keywordDifficulty ≤ d2.keywordDifficulty →
      calculateSEOScore d2 ≤ calculateSEOScore d1) := by
  constructor
  · intro hd hv
    simp only [calculateSEOScore, jsRound, hf, hd]
    apply Int.floor_le_floor
    have hdiv : d1.searchVolume / 100 ≤ d2.searchVolume / 100 := by
      apply div_le_div_of_nonneg_right hv; norm_num
    have := min_le_min hdiv (le_refl (50 : ℚ))
    linarith
  · intro hv hd
    simp only [calculateSEOScore, jsRound, hf, hv]
    apply Int.floor_le_floor
    have hdiv : d1.keywordDifficulty / 2 ≤ d2.keywordDifficulty / 2 := by
      apply div_le_div_of_nonneg_right hd; norm_num
    linarith

/-- Witness for C8: concrete keyword triples with higher volume scoring at
least as high and higher difficulty scoring at most as high. -/
theorem calculateSEOScore_monotone_witness :
    calculateSEOScore ⟨"a", 1000, 1, 0, 30, "Informational", ["PAA"], [], []⟩ ≤
      calculateSEOScore ⟨"b", 2400, 1, 0, 30, "Informational", ["PAA"], [], []⟩ ∧
    calculateSEOScore ⟨"c", 1000, 1, 0, 75, "Informational", ["PAA"], [], []⟩ ≤
      calculateSEOScore ⟨"a", 1000, 1, 0, 30, "Informational", ["PAA"], [], []⟩ := by
  constructor
  · exact (calculateSEOScore_monotone
      ⟨"a", 1000, 1, 0, 30, "Informational", ["PAA"], [], []⟩
      ⟨"b", 2400, 1, 0, 30, "Informational", ["PAA"], [], []⟩ rfl).1 rfl (by norm_num)
  · exact (calculateSEOScore_monotone
      ⟨"a", 1000, 1, 0, 30, "Informational", ["PAA"], [], []⟩
      ⟨"c", 1000, 1, 0, 75, "Informational", ["PAA"], [], []⟩ rfl).2 rfl (by norm_num)

/-- C10: `getContext` on a missing file returns the empty string and leaves
the cache untouched (so a later call re-probes the disk); only a successful
read populates the cache; a cached name is answered from the cache alone,
whatever the filesystem now holds; and `clearContextCache` empties the
cache. -/
theorem getContext_cache_spec (fs fs2 : String → Option String)
    (cache : ContextCache) (name c : String) :
    (cache.lookup name = none → fs (name ++ ".md") = none →
      getContext fs cache name = ("", cache)) ∧
    (cache.lookup name = none → fs (name ++ ".md") = some c →
      getContext fs cache name = (c, (name, c) :: cache)) ∧
    (cache.lookup name = some c → getContext fs2 cache name = (c, cache)) ∧
    clearContextCache.lookup name = none := by
  refine ⟨fun h1 h2 => ?_, fun h1 h2 => ?_, fun h => ?_, rfl⟩ <;>
    simp [getContext, *]

/-- Witness for C10: a missing file, a successful cached read, and a cache
hit served while the disk no longer has the file. -/
theorem getContext_cache_spec_witness :
    getContext (fun _ => none) [] "product-overview" = ("", []) ∧
    getContext (fun p => if p = "voice-guidelines.md" then some "V" else none) []
        "voice-guidelines" = ("V", [("voice-guidelines", "V")]) ∧
    getContext (fun _ => none) [("voice-guidelines", "V")] "voice-guidelines" =
      ("V", [("voice-guidelines", "V")]) ∧
    (clearContextCache.lookup "voice-guidelines" : Option String) = none := by
  refine ⟨(getContext_cache_spec (fun _ => none) (fun _ => none) [] "product-overview" "").1
      rfl rfl,
    (getContext_cache_spec (fun p => if p = "voice-guidelines.md" then some "V" else none)
      (fun _ => none) [] "voice-guidelines" "V").2.1 rfl (by simp),
    (getContext_cache_spec (fun _ => none) (fun _ => none)
      [("voice-guidelines", "V")] "voice-guidelines" "V").2.2.1 (by simp),
    (getContext_cache_spec (fun _ => none) (fun _ => none) [] "voice-guidelines" "").2.2.2⟩

/-- C9 counterexample: on an LLM response containing no brace-delimited
substring, the auto-cluster extraction raises its
`No JSON found in Claude response` error — whatever the JSON parser —
instead of returning a default shape with the raw text. -/
theorem cluster_parse_raises_counterexample :
    clusterExtract (fun _ => none) "Sorry, no structured output here." =
      .error .noJsonFound ∧
    braceMatch "Sorry, no structured output here." = none := by
  exact ⟨rfl, rfl⟩

/-- C9 (amended): on any parse failure (no brace-delimited substring found,
or invalid JSON in the extracted substring), the title extractor
`parseTitleResponse` returns the defined default shape with the raw
response preserved in `angles` rather than raising; the auto-cluster
extraction instead raises on exactly those failures, propagating to the
runtime retry policy. -/
theorem parse_failure_fallback (jsonParse : String → Option Json)
    (stringify : Json → String) (response : String)
    (h : (braceMatch response).bind jsonParse = none) :
    parseTitleResponse jsonParse stringify response =
      ⟨.jstr "", response, .jstr ""⟩ ∧
    (clusterExtract jsonParse response = .error .noJsonFound ∨
     clusterExtract jsonParse response = .error .jsonSyntaxError) := by
  cases hb : braceMatch response with
  | none =>
      exact ⟨by simp [parseTitleResponse, hb], Or.inl (by simp [clusterExtract, hb])⟩
  | some sub =>
      rw [hb] at h
      simp only [Option.some_bind] at h
      exact ⟨by simp [parseTitleResponse, hb, h],
        Or.inr (by simp [clusterExtract, hb, h])⟩

/-- Witness for C9 (amended): a brace-free response falls back in the title
path and raises in the cluster path. -/
theorem parse_failure_fallback_witness :
    parseTitleResponse (fun _ => none) (fun _ => "") "Here is the JSON you asked for" =
      ⟨.jstr "", "Here is the JSON you asked for", .jstr ""⟩ ∧
    (clusterExtract (fun _ => none) "Here is the JSON you asked for" =
        .error .noJsonFound ∨
     clusterExtract (fun _ => none) "Here is the JSON you asked for" =
        .error .jsonSyntaxError) :=
  parse_failure_fallback (fun _ => none) (fun _ => "")
    "Here is the JSON you asked for" rfl

/-- C1 counterexample: a `content/draft.approved` event whose feedback is
present and non-blank — `finalizeContent`, the function this event
triggers, makes no generation call and persists `Final Content` equal to
the incoming draft, where the claim requires the generation path and the
generated text. -/
theorem finalize_feedback_counterexample :
    hasFeedback (some "Please tighten the intro") = true ∧
    finalizeContent ⟨"rec1", "DRAFT", some "Please tighten the intro"⟩ =
      ([.update "rec1" [("Final Content", "DRAFT"), ("Status", "Complete")]],
       ("rec1", "complete")) ∧
    genCalls (finalizeContent ⟨"rec1", "DRAFT", some "Please tighten the intro"⟩).1 = [] := by
  exact ⟨rfl, rfl, rfl⟩

/-- C1 (amended): for every `content/draft.approved` event, the triggered
finalize function persists `Final Content` exactly equal to the incoming
draft with status `Complete` and never calls generation, whether or not
feedback is present; the finalize step of the monolithic pipeline likewise
persists the awaited draft verbatim.  The feedback fork the claim describes
is implemented only by the alternate finalize variant kept in the
repository, which generates from the `finalize-{contentType}` prompt
exactly when feedback is present and non-blank and copies the draft
otherwise. -/
theorem finalize_persists_draft (e : DraftApprovedData) (c : Collaborators)
    (e0 : StartData) (runId : String) (oa : OutlineApproval) (da : DraftApproval)
    (er : DraftApprovedRich) :
    finalizeContent e =
      ([.update e.recordId [("Final Content", e.draft), ("Status", "Complete")]],
       (e.recordId, "complete")) ∧
    genCalls (finalizeContent e).1 = [] ∧
    (contentPipeline c e0 runId (some oa) (some da)).1.getLast? =
      some (.update e0.recordId [("Final Content", da.draft), ("Status", "Complete")]) ∧
    genCalls (finalizeContentRefine c er).1 =
      (if hasFeedback er.feedback then [finalizePrompt c er] else []) ∧
    (finalizeContentRefine c er).1.getLast? =
      some (.update er.recordId
        [("Final Content",
          if hasFeedback er.feedback then c.generate (finalizePrompt c er) else er.draft),
         ("Status", "Complete")]) := by
  refine ⟨rfl, rfl, rfl, ?_, ?_⟩
  · by_cases h : hasFeedback er.feedback <;> simp [finalizeContentRefine, h, genCalls]
  · by_cases h : hasFeedback er.feedback <;> simp [finalizeContentRefine, h]

/-- C5: in the monolithic pipeline, each `waitForEvent` is keyed on
`data.recordId` with a 30-day timeout, and whenever a wait yields no event
the function persists `Status: Error` as its last write and returns the
corresponding timeout result — a normal return value, not an exception. -/
theorem pipeline_timeout_spec (c : Collaborators) (e : StartData) (runId : String)
    (oa : OutlineApproval) (dw : Option DraftApproval) :
    (contentPipeline c e runId none dw).2 = .timeout "outline" ∧
    (contentPipeline c e runId none dw).1.getLast? =
      some (.update e.recordId [("Status", "Error")]) ∧
    StageEffect.waitEvt "wait-outline-approval" "content/outline.approved" "30d"
        "data.recordId" ∈ (contentPipeline c e runId none dw).1 ∧
    (contentPipeline c e runId (some oa) none).2 = .timeout "draft" ∧
    (contentPipeline c e runId (some oa) none).1.getLast? =
      some (.update e.recordId [("Status", "Error")]) ∧
    StageEffect.waitEvt "wait-draft-approval" "content/draft.approved" "30d"
        "data.recordId" ∈ (contentPipeline c e runId (some oa) none).1 := by
  refine ⟨rfl, rfl, ?_, rfl, rfl, ?_⟩
  · simp [contentPipeline]
  · simp [contentPipeline]

/-- C3: every status persisted by a stage function, in either realization,
is strictly later in the fixed chain than the status whose external change
triggered that stage, or is `Error`: generate-outline (trigger `Ready`)
writes `Generating` and `Outline Review`; generate-draft (trigger
`Outline Approved`) writes `Drafting` and `Draft Review`; finalize (trigger
`Draft Approved`) writes `Complete`; the monolithic pipeline (trigger
`Ready`) writes only later statuses or `Error`. -/
theorem stage_status_forward (c : Collaborators) (getRec : String → RecordFields)
    (e1 : StartData) (runId : String) (e2 : OutlineApprovedData)
    (e3 : DraftApprovedData) (ow : Option OutlineApproval) (dw : Option DraftApproval) :
    (∀ s ∈ statusWrites (generateOutline c getRec e1 runId).1,
      movesForwardFrom (triggerStatus "content/pipeline.start") s) ∧
    (∀ s ∈ statusWrites (generateDraft c e2).1,
      movesForwardFrom (triggerStatus "content/outline.approved") s) ∧
    (∀ s ∈ statusWrites (finalizeContent e3).1,
      movesForwardFrom (triggerStatus "content/draft.approved") s) ∧
    (∀ s ∈ statusWrites (contentPipeline c e1 runId ow dw).1,
      movesForwardFrom (triggerStatus "content/pipeline.start") s) := by
  refine ⟨?_, ?_, ?_, ?_⟩
  · have h : statusWrites (generateOutline c getRec e1 runId).1 =
        ["Generating", "Outline Review"] := rfl
    rw [h]; intro s hs; fin_cases hs <;> decide
  · have h : statusWrites (generateDraft c e2).1 =
        ["Drafting", "Draft Review"] := rfl
    rw [h]; intro s hs; fin_cases hs <;> decide
  · have h : statusWrites (finalizeContent e3).1 = ["Complete"] := rfl
    rw [h]; intro s hs; fin_cases hs; decide
  · rcases ow with _ | oa
    · have h : statusWrites (contentPipeline c e1 runId none dw).1 =
          ["Generating", "Outline Review", "Error"] := rfl
      rw [h]; intro s hs; fin_cases hs <;> decide
    · rcases dw with _ | da
      · have h : statusWrites (contentPipeline c e1 runId (some oa) none).1 =
            ["Generating", "Outline Review", "Drafting", "Draft Review", "Error"] := rfl
        rw [h]; intro s hs; fin_cases hs <;> decide
      · have h : statusWrites (contentPipeline c e1 runId (some oa) (some da)).1 =
            ["Generating", "Outline Review", "Drafting", "Draft Review", "Complete"] := rfl
        rw [h]; intro s hs; fin_cases hs <;> decide

/-- Witness for C3: concrete runs of the three standalone stages and of the
pipeline (timed out at the first wait), one written status each. -/
theorem stage_status_forward_witness :
    movesForwardFrom (triggerStatus "content/pipeline.start") "Generating" ∧
    movesForwardFrom (triggerStatus "content/outline.approved") "Drafting" ∧
    movesForwardFrom (triggerStatus "content/draft.approved") "Complete" ∧
    movesForwardFrom (triggerStatus "content/pipeline.start") "Error" := by
  have h := stage_status_forward fixtureCollab (fun _ => fixtureRecord)
    ⟨"rec1", "T", none, none, "blog", none⟩ "run1"
    ⟨"rec1", "OUT", none, "T", "blog", none, none, none⟩
    ⟨"rec1", "DRAFT", none⟩ none none
  exact ⟨h.1 "Generating" (by decide), h.2.1 "Drafting" (by decide),
    h.2.2.1 "Complete" (by decide), h.2.2.2 "Error" (by decide)⟩

/-- Helper: the chunks of `batchUpdateStatus` concatenate back to the input
list when the fuel covers its length. -/
theorem batchChunksAux_join (fuel : Nat) :
    ∀ l : List String, l.length ≤ fuel → (batchChunksAux fuel l).flatten = l := by
  induction fuel with
  | zero =>
      intro l h
      have hl : l = [] := List.eq_nil_of_length_eq_zero (Nat.le_zero.mp h)
      subst hl; rfl
  | succ n ih =>
      intro l h
      cases l with
      | nil => rfl
      | cons x xs =>
          have hd : ((x :: xs).drop 10).length ≤ n := by
            rw [List.length_drop]; simp only [List.length_cons] at h ⊢; omega
          calc ((x :: xs).take 10 :: batchChunksAux n ((x :: xs).drop 10)).flatten
              = (x :: xs).take 10 ++ (batchChunksAux n ((x :: xs).drop 10)).flatten := rfl
            _ = (x :: xs).take 10 ++ (x :: xs).drop 10 := by rw [ih _ hd]
            _ = x :: xs := List.take_append_drop 10 (x :: xs)

/-- Helper: every chunk of `batchUpdateStatus` holds at most 10 ids. -/
theorem batchChunksAux_size (fuel : Nat) :
    ∀ l : List String, ∀ b ∈ batchChunksAux fuel l, b.length ≤ 10 := by
  induction fuel with
  | zero => intro l b hb; simp [batchChunksAux] at hb
  | succ n ih =>
      intro l b hb
      cases l with
      | nil => simp [batchChunksAux] at hb
      | cons x xs =>
          rcases List.mem_cons.mp hb with rfl | hb
          · simp
          · exact ih _ b hb

/-- C6: for a `content/batch.trigger` event with action `start`, the
dispatcher emits one `content/pipeline.start` event per record id, in input
order, carrying the title, content type, first linked
industry/persona ids and keywords; only after all N sends does it
bulk-update: the trace is the N sends followed by the chunked `Generating`
updates, whose consecutive chunks are of size at most 10 and concatenate
back to the input ids (every id in exactly one chunk, in order). -/
theorem batchTrigger_start_spec (getRec : String → RecordFields)
    (recordIds : List String) :
    (batchTrigger getRec recordIds "start").1 =
      (recordIds.map fun rid =>
        BatchEffect.send
          { recordId := rid, title := (getRec rid).title,
            industryId := (getRec rid).industry.bind List.head?,
            personaId := (getRec rid).persona.bind List.head?,
            contentType := (getRec rid).contentType,
            keywords := (getRec rid).targetKeywords }) ++
      (batchChunks recordIds).map (fun b => BatchEffect.bulkUpdate b "Generating") ∧
    (batchChunks recordIds).flatten = recordIds ∧
    (∀ b ∈ batchChunks recordIds, b.length ≤ 10) ∧
    (batchTrigger getRec recordIds "start").2 = .batchStarted recordIds.length := by
  exact ⟨rfl, batchChunksAux_join _ _ le_rfl, batchChunksAux_size _ _, rfl⟩

/-- Witness for C6: twelve ids chunk into a block of ten and a block of
two, concatenating back to the input. -/
theorem batchTrigger_start_spec_witness :
    (batchChunks ["r01", "r02", "r03", "r04", "r05", "r06", "r07", "r08", "r09",
        "r10", "r11", "r12"]).flatten =
      ["r01", "r02", "r03", "r04", "r05", "r06", "r07", "r08", "r09",
        "r10", "r11", "r12"] ∧
    (["r11", "r12"] : List String).length ≤ 10 := by
  refine ⟨(batchTrigger_start_spec (fun _ => fixtureRecord)
      ["r01", "r02", "r03", "r04", "r05", "r06", "r07", "r08", "r09",
        "r10", "r11", "r12"]).2.1,
    (batchTrigger_start_spec (fun _ => fixtureRecord)
      ["r01", "r02", "r03", "r04", "r05", "r06", "r07", "r08", "r09",
        "r10", "r11", "r12"]).2.2.1 ["r11", "r12"] (by decide)⟩

end Automara
